import Mathlib

/-!
Shallow embedding of the MongoDB chat-session store in
src/jac-gpt/server/database.py.

The Python class MongoDB holds two collections, sessions and messages.
We model the database contents as explicit state (a list per collection,
in insertion order).  Every call to datetime.utcnow() inside one method is
modelled by a single parameter now : Nat (timestamps within one method are
taken at the same instant).  Each underlying store call that may raise an
exception - caught by the try/except blocks in the source - is modelled by
an explicit Bool flag: true means that call raises, and the method then
returns the sentinel value of its except branch, keeping whatever state
changes happened before the raising call.
-/

/-- A document of the sessions collection.  The Mongo field _id is named
sid here; created_at, updated_at and status match the source fields. -/
structure Session where
  sid : String
  created_at : Nat
  updated_at : Nat
  status : String
deriving Repr, DecidableEq

/-- A document of the messages collection, as built in save_message. -/
structure Message where
  session_id : String
  role : String
  content : String
  timestamp : Nat
deriving Repr, DecidableEq

/-- The jac_gpt database: the two collections used by the module. -/
structure DB where
  sessions : List Session
  messages : List Message
deriving Repr, DecidableEq

/-- One entry of the value returned by get_chat_history: the source keeps
only the role and content fields of each message document. -/
structure ChatEntry where
  role : String
  content : String
deriving Repr, DecidableEq

/-- The mapping returned by get_session_stats on success (source lines
181-188). -/
structure SessionStats where
  session_id : String
  total_messages : Nat
  user_messages : Nat
  assistant_messages : Nat
  created_at : Nat
  updated_at : Nat
deriving Repr, DecidableEq

/-- Embedding of sessions.find_one with filter on _id: the first
document whose _id equals the given id, if any. -/
def findOneSession (db : DB) (sid : String) : Option Session :=
  db.sessions.find? (fun s => s.sid == sid)

/-- Embedding of collection.update_one: Mongo updates at most the first
document matching the filter; later matches are untouched. -/
def updateFirst {α : Type} (p : α → Bool) (f : α → α) : List α → List α
  | [] => []
  | x :: xs => if p x then f x :: xs else x :: updateFirst p f xs

/-- Embedding of pymongo cursor.limit: a limit of 0 is equivalent to no
limit, otherwise at most that many documents are returned. -/
def cursorLimit {α : Type} (k : Nat) (l : List α) : List α :=
  if k = 0 then l else l.take k

/-- The sort key of get_chat_history: ascending timestamp (sort with
key timestamp, direction 1 in the source). -/
def byTimestamp (a b : Message) : Prop := a.timestamp ≤ b.timestamp

instance : DecidableRel byTimestamp := fun a b => Nat.decLe a.timestamp b.timestamp

instance : IsTotal Message byTimestamp := ⟨fun a b => Nat.le_total a.timestamp b.timestamp⟩

instance : IsTrans Message byTimestamp := ⟨fun _ _ _ h h2 => Nat.le_trans h h2⟩

/-- Embedding of messages.find filtered by session_id: the documents of
the messages collection belonging to the session, in insertion order. -/
def sessionMessages (db : DB) (sid : String) : List Message :=
  db.messages.filter (fun m => m.session_id == sid)

/-- The messages of a session sorted by ascending timestamp, as the
cursor of get_chat_history yields them before the limit is applied. -/
def sortedSessionMessages (db : DB) (sid : String) : List Message :=
  List.insertionSort byTimestamp (sessionMessages db sid)

/-- MongoDB.create_session (source lines 67-93).  Builds the new document
with both timestamps now and status active, first looks the id up and
returns the existing document when found, otherwise inserts.  findErr and
insertErr model the two store calls raising; the except branch returns
None. -/
def MongoDB.create_session (db : DB) (now : Nat) (sid : String)
    (findErr insertErr : Bool) : Option Session × DB :=
  if findErr then (none, db)
  else
    match findOneSession db sid with
    | some existing => (some existing, db)
    | none =>
      if insertErr then (none, db)
      else
        let s : Session := { sid := sid, created_at := now, updated_at := now, status := "active" }
        (some s, { db with sessions := db.sessions ++ [s] })

/-- MongoDB.get_session (source lines 95-108).  Returns the document or
None when absent; the except branch also returns None. -/
def MongoDB.get_session (db : DB) (sid : String) (findErr : Bool) : Option Session :=
  if findErr then none else findOneSession db sid

/-- MongoDB.save_message (source lines 110-139).  Inserts the message
document with the current timestamp, then updates the owning session
document's updated_at field.  If the insert raises, nothing is stored and
False is returned; if the update raises, the message is already stored
but False is returned; otherwise True. -/
def MongoDB.save_message (db : DB) (now : Nat) (sid role content : String)
    (insertErr updateErr : Bool) : Bool × DB :=
  if insertErr then (false, db)
  else
    let msg : Message := { session_id := sid, role := role, content := content, timestamp := now }
    let db1 : DB := { db with messages := db.messages ++ [msg] }
    if updateErr then (false, db1)
    else
      (true, { db1 with
        sessions := updateFirst (fun s => s.sid == sid)
          (fun s => { s with updated_at := now }) db1.sessions })

/-- MongoDB.get_chat_history (source lines 141-162).  Finds the session's
messages, sorts by ascending timestamp, applies the cursor limit, and
keeps only the role and content fields; the except branch returns the
empty list. -/
def MongoDB.get_chat_history (db : DB) (sid : String) (limit : Nat)
    (findErr : Bool) : List ChatEntry :=
  if findErr then []
  else
    (cursorLimit limit (sortedSessionMessages db sid)).map
      (fun m => { role := m.role, content := m.content })

/-- MongoDB.get_session_stats (source lines 164-192).  Calls get_session
(whose own failures surface as None), returns the empty mapping (None
here) when the session is absent, then issues three count queries; any
of them raising lands in the except branch, returning the empty
mapping. -/
def MongoDB.get_session_stats (db : DB) (sid : String)
    (findErr cntErr1 cntErr2 cntErr3 : Bool) : Option SessionStats :=
  match MongoDB.get_session db sid findErr with
  | none => none
  | some s =>
    if cntErr1 then none
    else
      let total := (sessionMessages db sid).length
      if cntErr2 then none
      else
        let userCnt :=
          (db.messages.filter (fun m => m.session_id == sid && m.role == "user")).length
        if cntErr3 then none
        else
          let asstCnt :=
            (db.messages.filter (fun m => m.session_id == sid && m.role == "assistant")).length
          some { session_id := sid, total_messages := total, user_messages := userCnt,
                 assistant_messages := asstCnt,
                 created_at := s.created_at, updated_at := s.updated_at }

/-- MongoDB.close_session (source lines 194-209).  Sets status closed and
refreshes updated_at on the matching session document, if any.  The
Python method returns None in every case; accordingly the embedding
returns only the new state. -/
def MongoDB.close_session (db : DB) (now : Nat) (sid : String)
    (updateErr : Bool) : DB :=
  if updateErr then db
  else
    { db with
      sessions := updateFirst (fun s => s.sid == sid)
        (fun s => { s with status := "closed", updated_at := now }) db.sessions }

/-!
Module-level globals (source lines 17-18 and 217-236).  The module
declares two distinct globals: _database_instance (line 18, written by
get_database) and _db_instance (line 218, read and cleared by
close_database).  Instances are identified by a Nat; openConns lists the
instance ids whose client connection is open.
-/

/-- The module-level mutable state: databaseInstance models the global
_database_instance, dbInstance models the distinct global _db_instance,
openConns the set of constructed instances whose connection is open
and nextId a supply of fresh instance identities. -/
structure ModuleState where
  databaseInstance : Option Nat
  dbInstance : Option Nat
  openConns : List Nat
  nextId : Nat
deriving Repr, DecidableEq

/-- Module state right after import: both globals are None. -/
def initialModuleState : ModuleState :=
  { databaseInstance := none, dbInstance := none, openConns := [], nextId := 0 }

/-- get_database (source lines 220-229): lazily constructs the singleton,
storing it in _database_instance, and returns it. -/
def get_database (st : ModuleState) : Nat × ModuleState :=
  match st.databaseInstance with
  | some i => (i, st)
  | none =>
    (st.nextId,
     { st with databaseInstance := some st.nextId,
               openConns := st.openConns ++ [st.nextId],
               nextId := st.nextId + 1 })

/-- MongoDB.close_connection (source lines 211-215): closes the given
instance's client connection. -/
def MongoDB.close_connection (st : ModuleState) (i : Nat) : ModuleState :=
  { st with openConns := st.openConns.erase i }

/-- close_database (source lines 231-236): reads the global _db_instance,
and only when it is set closes that instance and clears _db_instance. -/
def close_database (st : ModuleState) : ModuleState :=
  match st.dbInstance with
  | some i => { MongoDB.close_connection st i with dbInstance := none }
  | none => st

/-!
Operation traces over the store, for the lifecycle invariants.  Reads
never change the collections; the three writers are create_session,
save_message and close_session.
-/

/-- One call to the store, with its time and error flags. -/
inductive Op where
  | create (now : Nat) (sid : String) (e1 e2 : Bool)
  | getSess (sid : String) (e : Bool)
  | save (now : Nat) (sid role content : String) (e1 e2 : Bool)
  | history (sid : String) (limit : Nat) (e : Bool)
  | stats (sid : String) (e1 e2 e3 e4 : Bool)
  | close (now : Nat) (sid : String) (e : Bool)
deriving Repr, DecidableEq

/-- Effect of one module operation on the stored state. -/
def step (db : DB) : Op → DB
  | .create now sid e1 e2 => (MongoDB.create_session db now sid e1 e2).2
  | .getSess _ _ => db
  | .save now sid role content e1 e2 => (MongoDB.save_message db now sid role content e1 e2).2
  | .history _ _ _ => db
  | .stats _ _ _ _ _ => db
  | .close now sid e => MongoDB.close_session db now sid e

/-- Effect of a sequence of module operations on the stored state. -/
def run (db : DB) (ops : List Op) : DB := ops.foldl step db

/-- How a stored session document may evolve under the module: identity
and creation time never change, and the status either stays what it was
or becomes closed - never anything else, in particular never back to
active from closed. -/
def SessEvolve (s s2 : Session) : Prop :=
  s2.sid = s.sid ∧ s2.created_at = s.created_at ∧
    (s2.status = s.status ∨ s2.status = "closed")

/-!
Helper lemmas about the embedded Mongo primitives.
-/

/-- updateFirst is the identity when no document matches the filter. -/
theorem updateFirst_of_forall_neg {α : Type} {p : α → Bool} (f : α → α) :
    ∀ l : List α, (∀ x ∈ l, ¬ p x = true) → updateFirst p f l = l
  | [], _ => rfl
  | x :: xs, h => by
    have hx : ¬ p x = true := h x (List.mem_cons_self x xs)
    simp only [updateFirst, if_neg hx]
    rw [updateFirst_of_forall_neg f xs (fun y hy => h y (List.mem_cons_of_mem x hy))]

/-- When find? locates a document, updateFirst rewrites exactly that
occurrence and leaves the rest of the collection unchanged. -/
theorem updateFirst_of_find_eq_some {α : Type} {p : α → Bool} {s : α} (f : α → α) :
    ∀ l : List α, l.find? p = some s →
      ∃ l1 l2, l = l1 ++ s :: l2 ∧ updateFirst p f l = l1 ++ f s :: l2
  | [], h => by simp at h
  | x :: xs, h => by
    by_cases hx : p x = true
    · rw [List.find?_cons_of_pos _ hx] at h
      injection h with h
      subst h
      exact ⟨[], xs, rfl, by simp [updateFirst, hx]⟩
    · rw [List.find?_cons_of_neg _ hx] at h
      obtain ⟨l1, l2, h1, h2⟩ := updateFirst_of_find_eq_some f xs h
      refine ⟨x :: l1, l2, by rw [h1]; rfl, ?_⟩
      simp [updateFirst, hx, h2]

/-- Every document of the collection survives updateFirst, either
untouched or transformed by the modifier. -/
theorem mem_updateFirst {α : Type} (p : α → Bool) (f : α → α) (R : α → α → Prop)
    (hrefl : ∀ x, R x x) (hf : ∀ x, R x (f x)) :
    ∀ l : List α, ∀ s ∈ l, ∃ s2 ∈ updateFirst p f l, R s s2
  | x :: xs, s, hs => by
    rcases List.mem_cons.mp hs with h | h
    · subst h
      by_cases hx : p s = true
      · exact ⟨f s, by simp [updateFirst, hx], hf s⟩
      · exact ⟨s, by simp [updateFirst, hx], hrefl s⟩
    · by_cases hx : p x = true
      · exact ⟨s, by simp [updateFirst, hx, h], hrefl s⟩
      · obtain ⟨s2, hs2, hR⟩ := mem_updateFirst p f R hrefl hf xs s h
        exact ⟨s2, by simp [updateFirst, hx]; exact Or.inr hs2, hR⟩

/-- Conversely, every document present after updateFirst is either an
original document or the modifier applied to an original document. -/
theorem of_mem_updateFirst {α : Type} {p : α → Bool} {f : α → α} :
    ∀ {l : List α} {y : α}, y ∈ updateFirst p f l → y ∈ l ∨ ∃ x ∈ l, y = f x
  | [], y, h => by simp [updateFirst] at h
  | x :: xs, y, h => by
    by_cases hx : p x = true
    · simp only [updateFirst, if_pos hx, List.mem_cons] at h
      rcases h with h | h
      · exact Or.inr ⟨x, List.mem_cons_self x xs, h⟩
      · exact Or.inl (List.mem_cons_of_mem x h)
    · simp only [updateFirst, if_neg hx, List.mem_cons] at h
      rcases h with h | h
      · exact Or.inl (h ▸ List.mem_cons_self x xs)
      · rcases of_mem_updateFirst h with h2 | ⟨z, hz, hzy⟩
        · exact Or.inl (List.mem_cons_of_mem x h2)
        · exact Or.inr ⟨z, List.mem_cons_of_mem x hz, hzy⟩

/-- find? over an append whose first part has no match. -/
theorem find_append_of_none {α : Type} {p : α → Bool} {l1 : List α}
    (h : l1.find? p = none) (l2 : List α) : (l1 ++ l2).find? p = l2.find? p := by
  rw [List.find?_append, h, Option.none_or]

/-!
Claim theorems.
-/

/-- C5: for an id not already present, create_session inserts a record
with status active and both timestamps set to now and returns it; for an
id already present it returns the stored record and changes nothing. -/
theorem create_session_spec (db : DB) (now : Nat) (sid : String) :
    (findOneSession db sid = none →
      MongoDB.create_session db now sid false false =
        (some { sid := sid, created_at := now, updated_at := now, status := "active" },
         { db with sessions := db.sessions ++
             [{ sid := sid, created_at := now, updated_at := now, status := "active" }] }))
    ∧ ∀ s, findOneSession db sid = some s →
        MongoDB.create_session db now sid false false = (some s, db) := by
  constructor
  · intro h
    simp [MongoDB.create_session, h]
  · intro s h
    simp [MongoDB.create_session, h]

/-- C5 witness: create on an empty store, then create over an existing
record, at concrete inputs. -/
theorem create_session_spec_witness :
    MongoDB.create_session ⟨[], []⟩ 7 "s1" false false =
      (some { sid := "s1", created_at := 7, updated_at := 7, status := "active" },
       ⟨[{ sid := "s1", created_at := 7, updated_at := 7, status := "active" }], []⟩) :=
  (create_session_spec ⟨[], []⟩ 7 "s1").1 (by decide)

/-- C1: create_session is idempotent: starting from a store without the
id, the first call inserts one record and returns it, and a second call
with the same id leaves the store unchanged and returns the very same
record. -/
theorem create_session_idempotent (db : DB) (now1 now2 : Nat) (sid : String)
    (h : findOneSession db sid = none) :
    ∃ s : Session,
      MongoDB.create_session db now1 sid false false =
        (some s, { db with sessions := db.sessions ++ [s] })
      ∧ MongoDB.create_session { db with sessions := db.sessions ++ [s] } now2 sid false false =
        (some s, { db with sessions := db.sessions ++ [s] }) := by
  refine ⟨{ sid := sid, created_at := now1, updated_at := now1, status := "active" }, ?_, ?_⟩
  · exact (create_session_spec db now1 sid).1 h
  · have hfind : findOneSession
        { db with sessions := db.sessions ++
            [{ sid := sid, created_at := now1, updated_at := now1, status := "active" }] } sid =
        some { sid := sid, created_at := now1, updated_at := now1, status := "active" } := by
      unfold findOneSession at h ⊢
      simp only []
      rw [find_append_of_none h]
      simp
    exact ((create_session_spec _ now2 sid).2 _ hfind)

/-- C1 witness: the two calls at concrete inputs. -/
theorem create_session_idempotent_witness :
    ∃ s : Session,
      MongoDB.create_session ⟨[], []⟩ 1 "s1" false false =
        (some s, { sessions := [] ++ [s], messages := [] })
      ∧ MongoDB.create_session { sessions := [] ++ [s], messages := [] } 2 "s1" false false =
        (some s, { sessions := [] ++ [s], messages := [] }) :=
  create_session_idempotent ⟨[], []⟩ 1 2 "s1" (by decide)

/-- C7: close_session on an existing session rewrites exactly that
record, setting status closed and updated_at to now while keeping sid,
created_at and every other record and all messages; on an absent id it
is the identity on the store.  Its Lean type returns only the state,
matching the Python method returning None in both cases. -/
theorem close_session_spec (db : DB) (now : Nat) (sid : String) :
    (∀ s, findOneSession db sid = some s →
      ∃ l1 l2, db.sessions = l1 ++ s :: l2 ∧
        (MongoDB.close_session db now sid false).sessions =
          l1 ++ { s with status := "closed", updated_at := now } :: l2 ∧
        (MongoDB.close_session db now sid false).messages = db.messages)
    ∧ (findOneSession db sid = none → MongoDB.close_session db now sid false = db) := by
  constructor
  · intro s h
    unfold findOneSession at h
    obtain ⟨l1, l2, h1, h2⟩ :=
      updateFirst_of_find_eq_some
        (fun s => { s with status := "closed", updated_at := now }) db.sessions h
    exact ⟨l1, l2, h1, by simpa [MongoDB.close_session] using h2, by simp [MongoDB.close_session]⟩
  · intro h
    unfold findOneSession at h
    rw [List.find?_eq_none] at h
    simp [MongoDB.close_session, updateFirst_of_forall_neg _ _ h]

/-- C7 witness: closing an existing session and a missing one, at
concrete inputs. -/
theorem close_session_spec_witness :
    (∃ l1 l2, ([⟨"s1", 0, 0, "active"⟩] : List Session) = l1 ++ ⟨"s1", 0, 0, "active"⟩ :: l2 ∧
      (MongoDB.close_session ⟨[⟨"s1", 0, 0, "active"⟩], []⟩ 5 "s1" false).sessions =
        l1 ++ ⟨"s1", 0, 5, "closed"⟩ :: l2 ∧
      (MongoDB.close_session ⟨[⟨"s1", 0, 0, "active"⟩], []⟩ 5 "s1" false).messages = [])
    ∧ MongoDB.close_session ⟨[⟨"s1", 0, 0, "active"⟩], []⟩ 5 "s2" false =
        ⟨[⟨"s1", 0, 0, "active"⟩], []⟩ :=
  ⟨(close_session_spec ⟨[⟨"s1", 0, 0, "active"⟩], []⟩ 5 "s1").1 ⟨"s1", 0, 0, "active"⟩ (by decide),
   (close_session_spec ⟨[⟨"s1", 0, 0, "active"⟩], []⟩ 5 "s2").2 (by decide)⟩

/-- C3: a fully successful save_message returns True and appends exactly
the message document with the current timestamp; when the owning session
is absent the timestamp update modifies nothing yet the call still
returns True with the message stored; and when the timestamp update
raises, the call returns False although the message is already stored -
the two writes are not atomic. -/
theorem save_message_best_effort (db : DB) (now : Nat) (sid role content : String) :
    ((MongoDB.save_message db now sid role content false false).1 = true
      ∧ (MongoDB.save_message db now sid role content false false).2.messages =
          db.messages ++ [{ session_id := sid, role := role, content := content, timestamp := now }])
    ∧ (findOneSession db sid = none →
        (MongoDB.save_message db now sid role content false false).2.sessions = db.sessions)
    ∧ ((MongoDB.save_message db now sid role content false true).1 = false
      ∧ (MongoDB.save_message db now sid role content false true).2.messages =
          db.messages ++ [{ session_id := sid, role := role, content := content, timestamp := now }]) := by
  refine ⟨⟨by simp [MongoDB.save_message], by simp [MongoDB.save_message]⟩, ?_,
    by simp [MongoDB.save_message], by simp [MongoDB.save_message]⟩
  intro h
  unfold findOneSession at h
  rw [List.find?_eq_none] at h
  simp [MongoDB.save_message, updateFirst_of_forall_neg _ _ h]

/-- C3 witness: saving into a store that has the message's session
absent, at concrete inputs. -/
theorem save_message_best_effort_witness :
    ((MongoDB.save_message ⟨[], []⟩ 3 "s1" "user" "hi" false false).1 = true
      ∧ (MongoDB.save_message ⟨[], []⟩ 3 "s1" "user" "hi" false false).2.messages =
          [] ++ [{ session_id := "s1", role := "user", content := "hi", timestamp := 3 }])
    ∧ (findOneSession ⟨[], []⟩ "s1" = none →
        (MongoDB.save_message ⟨[], []⟩ 3 "s1" "user" "hi" false false).2.sessions = [])
    ∧ ((MongoDB.save_message ⟨[], []⟩ 3 "s1" "user" "hi" false true).1 = false
      ∧ (MongoDB.save_message ⟨[], []⟩ 3 "s1" "user" "hi" false true).2.messages =
          [] ++ [{ session_id := "s1", role := "user", content := "hi", timestamp := 3 }]) :=
  save_message_best_effort ⟨[], []⟩ 3 "s1" "user" "hi"

/-- C4: no steady-state failure escapes as an error: under each possible
raising store call, create_session and get_session return None,
get_chat_history returns the empty list, get_session_stats returns the
empty mapping, save_message returns False, and close_session returns
normally leaving the store unchanged; and get_session on a never-created
id returns None rather than raising. -/
theorem error_sentinels (db : DB) (now : Nat) (sid role content : String) (k : Nat) (e : Bool) :
    (MongoDB.create_session db now sid true e).1 = none
    ∧ (findOneSession db sid = none → (MongoDB.create_session db now sid false true).1 = none)
    ∧ MongoDB.get_session db sid true = none
    ∧ (findOneSession db sid = none → MongoDB.get_session db sid false = none)
    ∧ MongoDB.get_chat_history db sid k true = []
    ∧ MongoDB.get_session_stats db sid true e e e = none
    ∧ MongoDB.get_session_stats db sid false true e e = none
    ∧ MongoDB.get_session_stats db sid false false true e = none
    ∧ MongoDB.get_session_stats db sid false false false true = none
    ∧ (MongoDB.save_message db now sid role content true e).1 = false
    ∧ (MongoDB.save_message db now sid role content false true).1 = false
    ∧ MongoDB.close_session db now sid true = db := by
  refine ⟨by simp [MongoDB.create_session], fun h => by simp [MongoDB.create_session, h],
    by simp [MongoDB.get_session], fun h => by simp [MongoDB.get_session, h],
    by simp [MongoDB.get_chat_history], ?_, ?_, ?_, ?_,
    by simp [MongoDB.save_message], by simp [MongoDB.save_message],
    by simp [MongoDB.close_session]⟩
  · simp [MongoDB.get_session_stats, MongoDB.get_session]
  · simp only [MongoDB.get_session_stats, MongoDB.get_session, if_false]
    cases findOneSession db sid <;> simp
  · simp only [MongoDB.get_session_stats, MongoDB.get_session, if_false]
    cases findOneSession db sid <;> simp
  · simp only [MongoDB.get_session_stats, MongoDB.get_session, if_false]
    cases findOneSession db sid <;> simp

/-- C4 witness: the conditional conjuncts discharged on a store without
the session, at concrete inputs. -/
theorem error_sentinels_witness :
    (MongoDB.create_session ⟨[], []⟩ 0 "s1" true false).1 = none
    ∧ (findOneSession ⟨[], []⟩ "s1" = none →
        (MongoDB.create_session ⟨[], []⟩ 0 "s1" false true).1 = none)
    ∧ MongoDB.get_session ⟨[], []⟩ "s1" true = none
    ∧ (findOneSession ⟨[], []⟩ "s1" = none → MongoDB.get_session ⟨[], []⟩ "s1" false = none)
    ∧ MongoDB.get_chat_history ⟨[], []⟩ "s1" 5 true = []
    ∧ MongoDB.get_session_stats ⟨[], []⟩ "s1" true false false false = none
    ∧ MongoDB.get_session_stats ⟨[], []⟩ "s1" false true false false = none
    ∧ MongoDB.get_session_stats ⟨[], []⟩ "s1" false false true false = none
    ∧ MongoDB.get_session_stats ⟨[], []⟩ "s1" false false false true = none
    ∧ (MongoDB.save_message ⟨[], []⟩ 0 "s1" "user" "hi" true false).1 = false
    ∧ (MongoDB.save_message ⟨[], []⟩ 0 "s1" "user" "hi" false true).1 = false
    ∧ MongoDB.close_session ⟨[], []⟩ 0 "s1" true = ⟨[], []⟩ :=
  error_sentinels ⟨[], []⟩ 0 "s1" "user" "hi" 5 false

/-- A store with one session and two of its messages, timestamps 1 and
2, used as concrete input for the chat-history claims. -/
def exDB2 : DB :=
  ⟨[⟨"s1", 0, 2, "active"⟩],
   [⟨"s1", "user", "hi", 1⟩, ⟨"s1", "assistant", "hello", 2⟩]⟩

/-- C2 counterexample: with limit 0 the claim fails - the store exDB2
holds a message for the session, and get_chat_history with limit 0
returns more than 0 entries, because the cursor treats limit 0 as no
limit. -/
theorem get_chat_history_limit_cex :
    ¬ ((MongoDB.get_chat_history exDB2 "s1" 0 false).length ≤ 0) := by decide

/-- C2 amended to positive limits: for every limit of at least 1,
get_chat_history returns the sorted session messages truncated to the
limit and projected to role and content, hence at most limit entries;
the sorted sequence is non-decreasing in timestamp, is a permutation of
the session's messages, and every returned message's timestamp is at
most every excluded message's timestamp - the limit-many oldest. -/
theorem get_chat_history_spec (db : DB) (sid : String) (k : Nat) (hk : 1 ≤ k) :
    MongoDB.get_chat_history db sid k false =
      ((sortedSessionMessages db sid).take k).map (fun m => ChatEntry.mk m.role m.content)
    ∧ (MongoDB.get_chat_history db sid k false).length ≤ k
    ∧ List.Sorted byTimestamp (sortedSessionMessages db sid)
    ∧ List.Perm (sortedSessionMessages db sid) (sessionMessages db sid)
    ∧ ∀ a ∈ (sortedSessionMessages db sid).take k,
        ∀ b ∈ (sortedSessionMessages db sid).drop k, a.timestamp ≤ b.timestamp := by
  have hk0 : k ≠ 0 := by omega
  have heq : MongoDB.get_chat_history db sid k false =
      ((sortedSessionMessages db sid).take k).map (fun m => ChatEntry.mk m.role m.content) := by
    simp [MongoDB.get_chat_history, cursorLimit, hk0]
  refine ⟨heq, ?_, ?_, ?_, ?_⟩
  · rw [heq, List.length_map, List.length_take]
    exact Nat.min_le_left _ _
  · exact List.sorted_insertionSort byTimestamp _
  · exact List.perm_insertionSort byTimestamp _
  · intro a ha b hb
    exact (List.sorted_insertionSort byTimestamp
      (sessionMessages db sid)).rel_of_mem_take_of_mem_drop ha hb

/-- C2 witness: the amended claim applied at exDB2 with limit 1. -/
theorem get_chat_history_spec_witness :
    MongoDB.get_chat_history exDB2 "s1" 1 false =
      ((sortedSessionMessages exDB2 "s1").take 1).map (fun m => ChatEntry.mk m.role m.content)
    ∧ (MongoDB.get_chat_history exDB2 "s1" 1 false).length ≤ 1
    ∧ List.Sorted byTimestamp (sortedSessionMessages exDB2 "s1")
    ∧ List.Perm (sortedSessionMessages exDB2 "s1") (sessionMessages exDB2 "s1")
    ∧ ∀ a ∈ (sortedSessionMessages exDB2 "s1").take 1,
        ∀ b ∈ (sortedSessionMessages exDB2 "s1").drop 1, a.timestamp ≤ b.timestamp :=
  get_chat_history_spec exDB2 "s1" 1 (by decide)

/-- C10: for a session with at least one message, get_chat_history with
limit 0 returns every message of the session (sorted and projected),
not zero entries: pymongo's cursor.limit treats 0 as no limit. -/
theorem get_chat_history_limit_zero (db : DB) (sid : String)
    (h : 1 ≤ (sessionMessages db sid).length) :
    MongoDB.get_chat_history db sid 0 false =
      (sortedSessionMessages db sid).map (fun m => ChatEntry.mk m.role m.content)
    ∧ (MongoDB.get_chat_history db sid 0 false).length = (sessionMessages db sid).length
    ∧ 1 ≤ (MongoDB.get_chat_history db sid 0 false).length := by
  have heq : MongoDB.get_chat_history db sid 0 false =
      (sortedSessionMessages db sid).map (fun m => ChatEntry.mk m.role m.content) := by
    simp [MongoDB.get_chat_history, cursorLimit]
  have hlen : (MongoDB.get_chat_history db sid 0 false).length =
      (sessionMessages db sid).length := by
    rw [heq, List.length_map]
    exact (List.perm_insertionSort byTimestamp (sessionMessages db sid)).length_eq
  exact ⟨heq, hlen, by rw [hlen]; exact h⟩

/-- C10 witness: limit 0 on a session holding two messages returns both
of them. -/
theorem get_chat_history_limit_zero_witness :
    MongoDB.get_chat_history exDB2 "s1" 0 false =
      (sortedSessionMessages exDB2 "s1").map (fun m => ChatEntry.mk m.role m.content)
    ∧ (MongoDB.get_chat_history exDB2 "s1" 0 false).length =
        (sessionMessages exDB2 "s1").length
    ∧ 1 ≤ (MongoDB.get_chat_history exDB2 "s1" 0 false).length :=
  get_chat_history_limit_zero exDB2 "s1" (by decide)

/-- A store holding one session and five of its messages: three with
role user and two with role assistant, used as concrete input for the
statistics claim. -/
def exDB6 : DB :=
  ⟨[⟨"s1", 0, 9, "active"⟩],
   [⟨"s1", "user", "a", 1⟩, ⟨"s1", "user", "b", 2⟩, ⟨"s1", "user", "c", 3⟩,
    ⟨"s1", "assistant", "d", 4⟩, ⟨"s1", "assistant", "e", 5⟩]⟩

/-- C6: for an existing session, get_session_stats returns the total,
user and assistant message counts together with the session's created_at
and updated_at; it returns the empty mapping when the session is absent;
and on a session with three user and two assistant messages it reports
total 5, user 3, assistant 2. -/
theorem get_session_stats_spec (db : DB) (sid : String) :
    (∀ s, findOneSession db sid = some s →
      MongoDB.get_session_stats db sid false false false false =
        some { session_id := sid,
               total_messages := (sessionMessages db sid).length,
               user_messages :=
                 (db.messages.filter (fun m => m.session_id == sid && m.role == "user")).length,
               assistant_messages :=
                 (db.messages.filter (fun m => m.session_id == sid && m.role == "assistant")).length,
               created_at := s.created_at, updated_at := s.updated_at })
    ∧ (findOneSession db sid = none →
        MongoDB.get_session_stats db sid false false false false = none)
    ∧ MongoDB.get_session_stats exDB6 "s1" false false false false =
        some { session_id := "s1", total_messages := 5, user_messages := 3,
               assistant_messages := 2, created_at := 0, updated_at := 9 } := by
  refine ⟨?_, ?_, by decide⟩
  · intro s h
    simp [MongoDB.get_session_stats, MongoDB.get_session, h]
  · intro h
    simp [MongoDB.get_session_stats, MongoDB.get_session, h]

/-- C6 witness: the stats of the five-message session, at concrete
inputs. -/
theorem get_session_stats_spec_witness :
    MongoDB.get_session_stats exDB6 "s1" false false false false =
      some { session_id := "s1",
             total_messages := (sessionMessages exDB6 "s1").length,
             user_messages :=
               (exDB6.messages.filter (fun m => m.session_id == "s1" && m.role == "user")).length,
             assistant_messages :=
               (exDB6.messages.filter (fun m => m.session_id == "s1" && m.role == "assistant")).length,
             created_at := 0, updated_at := 9 } :=
  (get_session_stats_spec exDB6 "s1").1 ⟨"s1", 0, 9, "active"⟩ (by decide)

/-!
Lifecycle invariants over operation traces.
-/

/-- SessEvolve is reflexive. -/
theorem SessEvolve.rfl (s : Session) : SessEvolve s s :=
  ⟨Eq.refl _, Eq.refl _, Or.inl (Eq.refl _)⟩

/-- SessEvolve is transitive: in particular once the status is closed it
stays closed. -/
theorem SessEvolve.trans {a b c : Session} (h : SessEvolve a b) (g : SessEvolve b c) :
    SessEvolve a c := by
  obtain ⟨h1, h2, h3⟩ := h
  obtain ⟨g1, g2, g3⟩ := g
  refine ⟨g1.trans h1, g2.trans h2, ?_⟩
  rcases g3 with g3 | g3
  · rcases h3 with h3 | h3
    · exact Or.inl (g3.trans h3)
    · exact Or.inr (g3.trans h3)
  · exact Or.inr g3

/-- create_session never touches the messages collection. -/
theorem create_session_messages (db : DB) (now : Nat) (sid : String) (e1 e2 : Bool) :
    (MongoDB.create_session db now sid e1 e2).2.messages = db.messages := by
  cases e1 <;> cases e2 <;> cases h : findOneSession db sid <;>
    simp [MongoDB.create_session, h]

/-- close_session never touches the messages collection. -/
theorem close_session_messages (db : DB) (now : Nat) (sid : String) (e : Bool) :
    (MongoDB.close_session db now sid e).messages = db.messages := by
  cases e <;> simp [MongoDB.close_session]

/-- save_message only ever appends to the messages collection. -/
theorem save_message_messages (db : DB) (now : Nat) (sid role content : String) (e1 e2 : Bool) :
    ∃ t, (MongoDB.save_message db now sid role content e1 e2).2.messages =
      db.messages ++ t := by
  cases e1 with
  | false =>
    cases e2 with
    | false =>
      exact ⟨[⟨sid, role, content, now⟩], by simp [MongoDB.save_message]⟩
    | true =>
      exact ⟨[⟨sid, role, content, now⟩], by simp [MongoDB.save_message]⟩
  | true => exact ⟨[], by simp [MongoDB.save_message]⟩

/-- One module operation only ever appends to the messages collection:
no stored message is mutated or deleted. -/
theorem step_messages (db : DB) (op : Op) :
    ∃ t, (step db op).messages = db.messages ++ t := by
  cases op with
  | create now sid e1 e2 => exact ⟨[], by simp [step, create_session_messages]⟩
  | getSess sid e => exact ⟨[], by simp [step]⟩
  | save now sid role content e1 e2 => exact save_message_messages db now sid role content e1 e2
  | history sid limit e => exact ⟨[], by simp [step]⟩
  | stats sid e1 e2 e3 e4 => exact ⟨[], by simp [step]⟩
  | close now sid e => exact ⟨[], by simp [step, close_session_messages]⟩

/-- Every stored session survives one module operation with the same id
and creation time, its status unchanged or moved to closed. -/
theorem step_sessions_corr (db : DB) (op : Op) (s : Session) (hs : s ∈ db.sessions) :
    ∃ s2 ∈ (step db op).sessions, SessEvolve s s2 := by
  cases op with
  | create now sid e1 e2 =>
    refine ⟨s, ?_, SessEvolve.rfl s⟩
    cases e1 <;> cases e2 <;> cases h : findOneSession db sid <;>
      simp [step, MongoDB.create_session, h, hs]
  | getSess sid e => exact ⟨s, hs, SessEvolve.rfl s⟩
  | save now sid role content e1 e2 =>
    cases e1 with
    | false =>
      cases e2 with
      | false =>
        have h := mem_updateFirst (fun u => u.sid == sid)
          (fun u => { u with updated_at := now }) SessEvolve SessEvolve.rfl
          (fun x => ⟨Eq.refl _, Eq.refl _, Or.inl (Eq.refl _)⟩) db.sessions s hs
        simpa [step, MongoDB.save_message] using h
      | true => exact ⟨s, by simp [step, MongoDB.save_message, hs], SessEvolve.rfl s⟩
    | true => exact ⟨s, by simp [step, MongoDB.save_message, hs], SessEvolve.rfl s⟩
  | history sid limit e => exact ⟨s, hs, SessEvolve.rfl s⟩
  | stats sid e1 e2 e3 e4 => exact ⟨s, hs, SessEvolve.rfl s⟩
  | close now sid e =>
    cases e with
    | false =>
      have h := mem_updateFirst (fun u => u.sid == sid)
        (fun u => { u with status := "closed", updated_at := now }) SessEvolve SessEvolve.rfl
        (fun x => ⟨Eq.refl _, Eq.refl _, Or.inr (Eq.refl _)⟩) db.sessions s hs
      simpa [step, MongoDB.close_session] using h
    | true => exact ⟨s, by simp [step, MongoDB.close_session, hs], SessEvolve.rfl s⟩

/-- A session id that was nonexistent before an operation can only enter
the store through create_session, with status active. -/
theorem step_fresh_active (db : DB) (op : Op) (s2 : Session)
    (h1 : s2 ∈ (step db op).sessions) (h2 : ∀ u ∈ db.sessions, u.sid ≠ s2.sid) :
    s2.status = "active" := by
  cases op with
  | create now sid e1 e2 =>
    cases e1 with
    | true => exact absurd rfl (h2 s2 (by simpa [step, MongoDB.create_session] using h1))
    | false =>
      rcases h : findOneSession db sid with _ | s0
      · cases e2 with
        | true =>
          exact absurd rfl (h2 s2 (by simpa [step, MongoDB.create_session, h] using h1))
        | false =>
          have h1b : s2 ∈ db.sessions ++
              [{ sid := sid, created_at := now, updated_at := now, status := "active" }] := by
            simpa [step, MongoDB.create_session, h] using h1
          rcases List.mem_append.mp h1b with hmem | hmem
          · exact absurd rfl (h2 s2 hmem)
          · rw [List.mem_singleton] at hmem
            rw [hmem]
      · exact absurd rfl (h2 s2 (by simpa [step, MongoDB.create_session, h] using h1))
  | getSess sid e => exact absurd rfl (h2 s2 h1)
  | save now sid role content e1 e2 =>
    cases e1 with
    | true => exact absurd rfl (h2 s2 (by simpa [step, MongoDB.save_message] using h1))
    | false =>
      cases e2 with
      | true => exact absurd rfl (h2 s2 (by simpa [step, MongoDB.save_message] using h1))
      | false =>
        have h1b : s2 ∈ updateFirst (fun u => u.sid == sid)
            (fun u => { u with updated_at := now }) db.sessions := by
          simpa [step, MongoDB.save_message] using h1
        rcases of_mem_updateFirst h1b with hmem | ⟨x, hx, hxy⟩
        · exact absurd rfl (h2 s2 hmem)
        · exact absurd (by rw [hxy]) (h2 x hx)
  | history sid limit e => exact absurd rfl (h2 s2 h1)
  | stats sid e1 e2 e3 e4 => exact absurd rfl (h2 s2 h1)
  | close now sid e =>
    cases e with
    | true => exact absurd rfl (h2 s2 (by simpa [step, MongoDB.close_session] using h1))
    | false =>
      have h1b : s2 ∈ updateFirst (fun u => u.sid == sid)
          (fun u => { u with status := "closed", updated_at := now }) db.sessions := by
        simpa [step, MongoDB.close_session] using h1
      rcases of_mem_updateFirst h1b with hmem | ⟨x, hx, hxy⟩
      · exact absurd rfl (h2 s2 hmem)
      · exact absurd (by rw [hxy]) (h2 x hx)

/-- Messages are append-only along any trace of module operations. -/
theorem run_messages (ops : List Op) : ∀ db : DB,
    ∃ t, (run db ops).messages = db.messages ++ t := by
  induction ops with
  | nil => exact fun db => ⟨[], by simp [run]⟩
  | cons op ops ih =>
    intro db
    obtain ⟨t1, h1⟩ := step_messages db op
    obtain ⟨t2, h2⟩ := ih (step db op)
    refine ⟨t1 ++ t2, ?_⟩
    show (run (step db op) ops).messages = db.messages ++ (t1 ++ t2)
    rw [h2, h1, List.append_assoc]

/-- Every stored session survives any trace of module operations with
the same id and creation time, never moving from closed back to any
other status. -/
theorem run_sessions_corr (ops : List Op) : ∀ (db : DB) (s : Session), s ∈ db.sessions →
    ∃ s2 ∈ (run db ops).sessions, SessEvolve s s2 := by
  induction ops with
  | nil => exact fun db s hs => ⟨s, hs, SessEvolve.rfl s⟩
  | cons op ops ih =>
    intro db s hs
    obtain ⟨s2, hs2, h2⟩ := step_sessions_corr db op s hs
    obtain ⟨s3, hs3, h3⟩ := ih (step db op) s2 hs2
    exact ⟨s3, hs3, h2.trans h3⟩

/-- C8: under every sequence of module operations each session follows
the state machine nonexistent, then active, then closed: a stored
session is never deleted, keeps its id and creation time, its status
only ever stays or becomes closed (never closed back to active), a
fresh id can only enter the store with status active, and the messages
collection only grows - no message is mutated or deleted. -/
theorem session_state_machine (db : DB) (ops : List Op) (s : Session) (hs : s ∈ db.sessions) :
    (∃ t, (run db ops).messages = db.messages ++ t)
    ∧ (∃ s2 ∈ (run db ops).sessions, SessEvolve s s2)
    ∧ (∀ op s2, s2 ∈ (step db op).sessions →
        (∀ u ∈ db.sessions, u.sid ≠ s2.sid) → s2.status = "active") :=
  ⟨run_messages ops db, run_sessions_corr ops db s hs,
   fun op s2 h1 h2 => step_fresh_active db op s2 h1 h2⟩

/-- C8 witness: a one-session store driven by a close operation, at
concrete inputs. -/
theorem session_state_machine_witness :
    (∃ t, (run ⟨[⟨"s1", 0, 0, "active"⟩], []⟩ [Op.close 5 "s1" false]).messages =
        (⟨[⟨"s1", 0, 0, "active"⟩], []⟩ : DB).messages ++ t)
    ∧ (∃ s2 ∈ (run ⟨[⟨"s1", 0, 0, "active"⟩], []⟩ [Op.close 5 "s1" false]).sessions,
        SessEvolve ⟨"s1", 0, 0, "active"⟩ s2)
    ∧ (∀ op s2, s2 ∈ (step ⟨[⟨"s1", 0, 0, "active"⟩], []⟩ op).sessions →
        (∀ u ∈ (⟨[⟨"s1", 0, 0, "active"⟩], []⟩ : DB).sessions, u.sid ≠ s2.sid) →
        s2.status = "active") :=
  session_state_machine ⟨[⟨"s1", 0, 0, "active"⟩], []⟩ [Op.close 5 "s1" false]
    ⟨"s1", 0, 0, "active"⟩ (by decide)

/-- C9: get_database stores the singleton in one global while
close_database reads and clears a distinct, never-assigned global:
get_database never writes the latter, so after building the singleton a
close_database call is a complete no-op, and a subsequent get_database
returns the same instance whose connection is still open. -/
theorem close_database_noop (st : ModuleState) (h1 : st.databaseInstance = none)
    (h2 : st.dbInstance = none) :
    (get_database st).2.dbInstance = none
    ∧ close_database (get_database st).2 = (get_database st).2
    ∧ (get_database (close_database (get_database st).2)).1 = (get_database st).1
    ∧ (get_database st).1 ∈ (close_database (get_database st).2).openConns := by
  have hst : (get_database st).2.dbInstance = none := by
    simp [get_database, h1, h2]
  have hclose : close_database (get_database st).2 = (get_database st).2 := by
    simp [close_database, hst]
  refine ⟨hst, hclose, ?_, ?_⟩
  · rw [hclose]
    simp [get_database, h1]
  · rw [hclose]
    simp [get_database, h1]

/-- C9 witness: the flow from module import - build the singleton, call
close_database, fetch again. -/
theorem close_database_noop_witness :
    (get_database initialModuleState).2.dbInstance = none
    ∧ close_database (get_database initialModuleState).2 =
        (get_database initialModuleState).2
    ∧ (get_database (close_database (get_database initialModuleState).2)).1 =
        (get_database initialModuleState).1
    ∧ (get_database initialModuleState).1 ∈
        (close_database (get_database initialModuleState).2).openConns :=
  close_database_noop initialModuleState (Eq.refl _) (Eq.refl _)
